import Mathlib

set_option maxRecDepth 8192

/-!
Verification development for the bt-navi-tests repository.

The central object is the LE secure-pairing test orchestrator
`test_secure_pairing` in navi/tests/functionality/le_pairing_test.py,
embedded here as a pure function from a scenario case and an environment
(the event streams delivered by the two endpoints) to either a test error
or a run result recording the orchestrator's observable actions.
The scenario matrix, the connection-establishment helpers and the extended
HCI packet codec (navi/bumble_ext/hci.py) are embedded separately.
-/

/-- `TestVariant` from le_pairing_test.py: the action taken once both sides
report the pairing method. -/
inductive TestVariant
  | ACCEPT
  | REJECT
  | REJECTED
  | DISCONNECTED
  deriving DecidableEq, Repr

/-- Modelled from the spec: `constants.Direction` (navi/utils/constants.py is
not under src/). The spec data model gives the enumeration
{OUTGOING, INCOMING}, applied independently to connection establishment and
to pairing initiation. -/
inductive Direction
  | OUTGOING
  | INCOMING
  deriving DecidableEq, Repr

/-- `pairing.PairingDelegate.IoCapability` from the bumble library
(an external collaborator): the five SMP IO capability values. -/
inductive IoCapability
  | DISPLAY_OUTPUT_ONLY
  | DISPLAY_OUTPUT_AND_YES_NO_INPUT
  | KEYBOARD_INPUT_ONLY
  | NO_OUTPUT_NO_INPUT
  | DISPLAY_OUTPUT_AND_KEYBOARD_INPUT
  deriving DecidableEq, Repr

/-- `hci.OwnAddressType` values used by the test (bumble library). -/
inductive OwnAddressType
  | PUBLIC
  | RANDOM
  deriving DecidableEq, Repr

/-- `pairing.PairingDelegate.KeyDistribution` bit flags (bumble library);
key-distribution masks are naturals formed by or-ing these. -/
def DISTRIBUTE_ENCRYPTION_KEY : Nat := 1

def DISTRIBUTE_IDENTITY_KEY : Nat := 2

def DISTRIBUTE_SIGNING_KEY : Nat := 4

def DISTRIBUTE_LINK_KEY : Nat := 8

namespace android_constants

/-- `android_constants.BondState` (navi/utils/android_constants.py is not
under src/). Modelled from the spec: enumeration {NONE, BONDING, BONDED}
observed via DUT-side callback events. -/
inductive BondState
  | NONE
  | BONDING
  | BONDED
  deriving DecidableEq, Repr

/-- `android_constants.PairingVariant` (navi/utils/android_constants.py is
not under src/). Modelled from the spec: the DUT-reported prompt variants;
the test compares against CONSENT and PASSKEY_CONFIRMATION. -/
inductive PairingVariant
  | PIN
  | PASSKEY
  | PASSKEY_CONFIRMATION
  | CONSENT
  | DISPLAY_PASSKEY
  | DISPLAY_PIN
  deriving DecidableEq, Repr

end android_constants

namespace pairing_utils

/-- `pairing_utils.PairingVariant` (navi/tests/smoke/pairing_utils.py is not
under src/). Modelled from the spec: tagged variant over
{just-works, numeric-comparison, passkey-entry, consent}. -/
inductive PairingVariant
  | JUST_WORK
  | NUMERIC_COMPARISON
  | PASSKEY_ENTRY
  | CONSENT
  deriving DecidableEq, Repr

/-- Payload of a `pairing_utils.PairingEvent`: a boolean, a number, or
absent (Python True/False, int, or None). -/
inductive PairingArg
  | boolean (b : Bool)
  | number (n : Nat)
  | absent
  deriving DecidableEq, Repr

/-- `pairing_utils.PairingEvent` (navi/tests/smoke/pairing_utils.py is not
under src/). Modelled from the spec: `PairingEvent{variant, value}` items of
the delegate's inbound prompt queue and outbound answer queue. -/
structure PairingEvent where
  variant : PairingVariant
  arg : PairingArg
  deriving DecidableEq, Repr

end pairing_utils

/-- `ScenarioCase`: the parameter tuple of one `test_secure_pairing` case. -/
structure ScenarioCase where
  variant : TestVariant
  connection_direction : Direction
  pairing_direction : Direction
  ref_io_capability : IoCapability
  ref_connection_address_type : OwnAddressType
  smp_key_distribution : Nat
  deriving DecidableEq, Repr

/-- `list(TestVariant)`: Python enum iteration order is declaration order. -/
def testVariantList : List TestVariant :=
  [.ACCEPT, .REJECT, .REJECTED, .DISCONNECTED]

/-- `list(_Direction)`. Modelled from the spec: the member order of
`constants.Direction` (not under src/) follows the spec's enumeration
{OUTGOING, INCOMING}. -/
def directionList : List Direction :=
  [.OUTGOING, .INCOMING]

/-- The IO capability choices of the parameter product. -/
def ioCapabilityChoices : List IoCapability :=
  [.NO_OUTPUT_NO_INPUT, .DISPLAY_OUTPUT_AND_YES_NO_INPUT]

/-- The REF own-address-type choices of the parameter product. -/
def addressTypeChoices : List OwnAddressType :=
  [.RANDOM, .PUBLIC]

/-- The key-distribution choices of the parameter product:
IRK + LTK, and IRK + LTK + LK (CTKD). -/
def smpKeyDistributionChoices : List Nat :=
  [DISTRIBUTE_ENCRYPTION_KEY ||| DISTRIBUTE_IDENTITY_KEY,
   DISTRIBUTE_ENCRYPTION_KEY ||| DISTRIBUTE_IDENTITY_KEY
     ||| DISTRIBUTE_LINK_KEY]

/-- First exclusion guard of the parameterized generator: Android cannot
reject pairing when the PASSKEY_NOTIFICATION method is used
(variant REJECT together with REF capability KEYBOARD_INPUT_ONLY). -/
def rejectWithKeyboardInputOnly (c : ScenarioCase) : Bool :=
  c.variant == .REJECT && c.ref_io_capability == .KEYBOARD_INPUT_ONLY

/-- Second exclusion guard of the parameterized generator: Android cannot
send SMP_Security_Request (incoming connection with outgoing pairing). -/
def incomingConnectionOutgoingPairing (c : ScenarioCase) : Bool :=
  c.connection_direction == .INCOMING && c.pairing_direction == .OUTGOING

/-- A case matches one of the two exclusion guards. -/
def matchesEitherExclusion (c : ScenarioCase) : Bool :=
  rejectWithKeyboardInputOnly c || incomingConnectionOutgoingPairing c

/-- The executed scenario matrix: the generator expression of
`@navi_test_base.parameterized` — `itertools.product` over the six parameter
lists with the two `if not (...)` guards, in cross-product order
(rightmost factor varying fastest). -/
def scenarioMatrix : List ScenarioCase :=
  testVariantList.flatMap fun variant =>
    directionList.flatMap fun connection_direction =>
      directionList.flatMap fun pairing_direction =>
        ioCapabilityChoices.flatMap fun ref_io_capability =>
          addressTypeChoices.flatMap fun ref_connection_address_type =>
            smpKeyDistributionChoices.flatMap fun smp_key_distribution =>
              let c : ScenarioCase :=
                ⟨variant, connection_direction, pairing_direction,
                  ref_io_capability, ref_connection_address_type,
                  smp_key_distribution⟩
              if !rejectWithKeyboardInputOnly c
                  && !incomingConnectionOutgoingPairing c then
                [c]
              else
                []

/-- The unfiltered cross-product of the six parameter lists, in the same
cross-product order. -/
def fullCrossProduct : List ScenarioCase :=
  testVariantList.flatMap fun variant =>
    directionList.flatMap fun connection_direction =>
      directionList.flatMap fun pairing_direction =>
        ioCapabilityChoices.flatMap fun ref_io_capability =>
          addressTypeChoices.flatMap fun ref_connection_address_type =>
            smpKeyDistributionChoices.flatMap fun smp_key_distribution =>
              [⟨variant, connection_direction, pairing_direction,
                 ref_io_capability, ref_connection_address_type,
                 smp_key_distribution⟩]

/-! ## The orchestrator `test_secure_pairing`

The test body is embedded as a pure function over a `ScenarioCase` and an
`Env` (the event streams the two endpoints deliver during the case).  Waits
bounded by a timeout become lookups in the corresponding stream: an absent
matching event is the timeout.  The function records every observable
action of the orchestrator in order. -/

/-- `bl4a_api.PairingRequest` callback events delivered to the DUT callback
stream (navi/utils/bl4a_api.py is not under src/). Modelled from the spec:
`PairingRequest{address, variant, pin}`. -/
structure PairingRequest where
  address : String
  variant : android_constants.PairingVariant
  pin : Nat
  deriving DecidableEq, Repr

/-- `bl4a_api.BondStateChanged` callback events. Modelled from the spec:
`BondStateChanged{address, state}`; the test filters on the state only. -/
structure BondStateChanged where
  state : android_constants.BondState
  deriving DecidableEq, Repr

/-- Error classes a REF-side pairing task can complete with
(`core.ProtocolError`, `asyncio.exceptions.CancelledError`, anything else). -/
inductive RefPairError
  | protocolError
  | cancelledError
  | otherError
  deriving DecidableEq, Repr

/-- Failure classes of one orchestrated case: a bounded wait expired, a
`asserts.assert_equal` failed, the capability lookup dict raised KeyError,
or REF's pairing task completed with an unsuppressed error. -/
inductive TestError
  | timeout
  | assertionError
  | lookupError
  | refPairTaskError (e : RefPairError)
  deriving DecidableEq, Repr

/-- Observable orchestrator actions, in program order. -/
inductive TestAction
  | makeOutgoingConnection (create_bond : Bool)
  | requestPairing
  | clearBondStateEvents
  | makeIncomingConnection
  | createRefPairTask
  | createBond
  | waitDutPairingRequest
  | setPairingConfirmation (accept : Bool)
  | waitRefPairingEvent
  | putPairingAnswer (answer : pairing_utils.PairingEvent)
  | disconnect
  | waitBondStateChanged
  | awaitRefPairTask
  deriving DecidableEq, Repr

/-- The environment of one case: addresses of REF and the event streams
both endpoints deliver while the case runs.  `refPairResult` is the
completion of REF's `connection.pair()` task (`none` = no error). -/
structure Env where
  refRandomAddress : String
  refPublicAddress : String
  dutPairingRequests : List PairingRequest
  refPairingEvents : List pairing_utils.PairingEvent
  bondStateEvents : List BondStateChanged
  refPairResult : Option RefPairError
  deriving DecidableEq, Repr

/-- Everything the orchestrator observed on a successful case. -/
structure RunResult where
  actions : List TestAction
  dutPairingEvent : PairingRequest
  refPairingEvent : pairing_utils.PairingEvent
  tableAnswer : pairing_utils.PairingEvent
  refAnswers : List pairing_utils.PairingEvent
  resolutionConfirmation : Option Bool
  terminalBondState : android_constants.BondState
  deriving DecidableEq, Repr

/-- Python `str.upper()` on the address string. -/
def strUpper (s : String) : String :=
  ⟨s.data.map Char.toUpper⟩

/-- `ref_addr` of the test body: REF's random or public address, depending
on `ref_connection_address_type`, uppercased. -/
def ref_addr (c : ScenarioCase) (env : Env) : String :=
  strUpper (if c.ref_connection_address_type == .RANDOM then
    env.refRandomAddress
  else
    env.refPublicAddress)

/-- `need_double_confirmation`: outgoing connection with incoming pairing
direction. -/
def need_double_confirmation (c : ScenarioCase) : Bool :=
  c.connection_direction == .OUTGOING && c.pairing_direction == .INCOMING

/-- The test keeps a REF `pair_task` exactly when the connection direction
is INCOMING and the pairing direction is INCOMING
(`pair_task = asyncio.create_task(ref_dut.pair())`). -/
def hasRefPairTask (c : ScenarioCase) : Bool :=
  c.connection_direction == .INCOMING && c.pairing_direction == .INCOMING

/-- `_TERMINATED_BOND_STATES = (BondState.BONDED, BondState.NONE)`. -/
def terminatedBondState (s : android_constants.BondState) : Bool :=
  s == .BONDED || s == .NONE

/-- `wait_for_event(type, predicate, timeout)` of the bl4a callback stream
(bl4a_api is not under src/). Modelled from the spec: returns the next
event satisfying the predicate together with the rest of the stream;
`none` is the timeout. -/
def waitForEvent {α : Type} (p : α → Bool) : List α → Option (α × List α)
  | [] => none
  | e :: rest => if p e then some (e, rest) else waitForEvent p rest

/-- The actions of the connecting and pairing-initiating stage, by
direction combination (the four-way branch of the test body). -/
def connectingStage (c : ScenarioCase) : List TestAction :=
  if c.connection_direction == .OUTGOING then
    if c.pairing_direction == .INCOMING then
      [.makeOutgoingConnection false, .requestPairing]
    else
      [.makeOutgoingConnection true, .clearBondStateEvents]
  else
    if c.pairing_direction == .INCOMING then
      [.makeIncomingConnection, .createRefPairTask]
    else
      [.makeIncomingConnection, .createBond]

/-- The DUT pairing-request waits: one wait, or — when
`need_double_confirmation` — an initial confirmation followed by a second
wait whose event replaces the first as `dut_pairing_event`. -/
def awaitDutPairingEvent (c : ScenarioCase) (refAddr : String)
    (requests : List PairingRequest) : Option (PairingRequest × List TestAction) :=
  match waitForEvent (fun e => e.address == refAddr) requests with
  | none => none
  | some (e1, rest1) =>
    if need_double_confirmation c then
      match waitForEvent (fun e => e.address == refAddr) rest1 with
      | none => none
      | some (e2, _) =>
        some (e2, [.waitDutPairingRequest, .setPairingConfirmation true,
          .waitDutPairingRequest])
    else
      some (e1, [.waitDutPairingRequest])

/-- The lookup dict keyed by `ref_io_capability`: expected DUT-reported
variant, expected REF-reported variant, and the answer for the REF
delegate (`none` models the KeyError for keys absent from the dict). -/
def expectedPairingTable (cap : IoCapability) (dutPin : Nat) :
    Option (android_constants.PairingVariant × pairing_utils.PairingVariant
      × pairing_utils.PairingEvent) :=
  match cap with
  | .NO_OUTPUT_NO_INPUT =>
    some (.CONSENT, .JUST_WORK, ⟨.JUST_WORK, .boolean true⟩)
  | .DISPLAY_OUTPUT_AND_YES_NO_INPUT =>
    some (.PASSKEY_CONFIRMATION, .NUMERIC_COMPARISON,
      ⟨.NUMERIC_COMPARISON, .number dutPin⟩)
  | _ => none

/-- `[DUT] Handle pairing confirmation`: the `setPairingConfirmation`
action and its argument, by variant (nothing for DISCONNECTED). -/
def dutConfirmationStage (variant : TestVariant) :
    List TestAction × Option Bool :=
  match variant with
  | .ACCEPT | .REJECTED => ([.setPairingConfirmation true], some true)
  | .REJECT => ([.setPairingConfirmation false], some false)
  | .DISCONNECTED => ([], none)

/-- The REJECTED-variant mutation of `ref_answer`: `arg = False` for
just-works / numeric-comparison, `arg = None` otherwise. -/
def rejectedAnswer (ans : pairing_utils.PairingEvent) :
    pairing_utils.PairingEvent :=
  if ans.variant == .JUST_WORK || ans.variant == .NUMERIC_COMPARISON then
    { ans with arg := .boolean false }
  else
    { ans with arg := .absent }

/-- `[REF] Handle pairing confirmation` combined with the unconditional
trailing `pairing_answers.put_nowait(ref_answer)`: actions and the answers
enqueued, in order.  ACCEPT and REJECT enqueue the answer in the `match`
and again at the trailing put; DISCONNECTED disconnects first and then the
trailing put runs; REJECTED mutates the answer, then the trailing put runs. -/
def refConfirmationStage (variant : TestVariant)
    (refAnswer : pairing_utils.PairingEvent) :
    List TestAction × List pairing_utils.PairingEvent :=
  match variant with
  | .ACCEPT | .REJECT =>
    ([.putPairingAnswer refAnswer, .putPairingAnswer refAnswer],
      [refAnswer, refAnswer])
  | .DISCONNECTED =>
    ([.disconnect, .putPairingAnswer refAnswer], [refAnswer])
  | .REJECTED =>
    let ans := rejectedAnswer refAnswer
    ([.putPairingAnswer ans], [ans])

/-- `expected_errors` of the final `[REF] Wait pairing complete` step. -/
def expectedErrors : TestVariant → List RefPairError
  | .REJECT | .REJECTED => [.protocolError]
  | .DISCONNECTED => [.cancelledError]
  | _ => []

/-- The final `if pair_task:` block: await the task under
`contextlib.suppress(*expected_errors)`; an error outside the expected
list fails the case. -/
def checkRefPairTask (c : ScenarioCase) (res : Option RefPairError) :
    Except TestError (List TestAction) :=
  if hasRefPairTask c then
    match res with
    | none => .ok [.awaitRefPairTask]
    | some e =>
      if (expectedErrors c.variant).contains e then
        .ok [.awaitRefPairTask]
      else
        .error (.refPairTaskError e)
  else
    .ok []

/-- All stages of `test_secure_pairing` before the final pair-task await:
connect and initiate, wait for the DUT pairing request(s), take REF's
pairing event, look up and assert the expected prompt variants, perform
the variant resolution, and check the terminal bond state. -/
def pairingStages (c : ScenarioCase) (env : Env) :
    Except TestError RunResult :=
  let refAddr := ref_addr c env
  match awaitDutPairingEvent c refAddr env.dutPairingRequests with
  | none => .error .timeout
  | some (dutEvent, dutWaitActions) =>
    match env.refPairingEvents.head? with
    | none => .error .timeout
    | some refEvent =>
      match expectedPairingTable c.ref_io_capability dutEvent.pin with
      | none => .error .lookupError
      | some (expectedDutVariant, expectedRefVariant, refAnswer) =>
        if dutEvent.variant == expectedDutVariant then
          if refEvent.variant == expectedRefVariant then
            let dutConfirm := dutConfirmationStage c.variant
            let refConfirm := refConfirmationStage c.variant refAnswer
            let expectState : android_constants.BondState :=
              if c.variant == .ACCEPT then .BONDED else .NONE
            match waitForEvent (fun e => terminatedBondState e.state)
                env.bondStateEvents with
            | none => .error .timeout
            | some (bondEvent, _) =>
              if bondEvent.state == expectState then
                .ok {
                  actions := connectingStage c ++ dutWaitActions
                    ++ [.waitRefPairingEvent] ++ dutConfirm.fst
                    ++ refConfirm.fst ++ [.waitBondStateChanged],
                  dutPairingEvent := dutEvent,
                  refPairingEvent := refEvent,
                  tableAnswer := refAnswer,
                  refAnswers := refConfirm.snd,
                  resolutionConfirmation := dutConfirm.snd,
                  terminalBondState := bondEvent.state }
              else
                .error .assertionError
          else
            .error .assertionError
        else
          .error .assertionError

/-- The whole orchestrated case: the pairing stages followed by the final
`if pair_task:` await with its error suppression. -/
def test_secure_pairing (c : ScenarioCase) (env : Env) :
    Except TestError RunResult :=
  match pairingStages c env with
  | .error e => .error e
  | .ok pre =>
    match checkRefPairTask c env.refPairResult with
    | .error e => .error e
    | .ok pairTaskActions =>
      .ok { pre with actions := pre.actions ++ pairTaskActions }

/-- `true` exactly when the case run succeeded. -/
def runOk {ε α : Type} : Except ε α → Bool
  | .ok _ => true
  | .error _ => false

/-- The action trace of a successful run (empty on failure). -/
def runActions : Except TestError RunResult → List TestAction
  | .ok r => r.actions
  | .error _ => []

/-- Count of answers enqueued before the first `disconnect` action (all
answers when no disconnect occurs). -/
def putsBeforeDisconnect : List TestAction → Nat
  | [] => 0
  | .disconnect :: _ => 0
  | .putPairingAnswer _ :: rest => 1 + putsBeforeDisconnect rest
  | _ :: rest => putsBeforeDisconnect rest

/-- `true` when the trace contains a DUT pairing-request wait, an initial
`setPairingConfirmation(True)`, and a second wait, consecutively. -/
def confirmationBetweenWaits : List TestAction → Bool
  | .waitDutPairingRequest :: .setPairingConfirmation true
      :: .waitDutPairingRequest :: _ => true
  | _ :: rest => confirmationBetweenWaits rest
  | [] => false

/-! ## Connection establishment

`_make_outgoing_connection` and `_make_incoming_connection` of
le_pairing_test.py, with their `retry.retry_on_exception` wrapper
(navi/utils/retry.py is not under src/; the wrapper is modelled from
the spec as bounded sequential re-invocation on retryable failures). -/

/-- `_DEFAULT_STEP_TIMEOUT_SECONDS = 15.0`. -/
def DEFAULT_STEP_TIMEOUT_SECONDS : Nat := 15

/-- Transports of `bumble.core` used by the connection filter. -/
inductive Transport
  | LE
  | CLASSIC
  deriving DecidableEq, Repr

/-- A `connection` event observed on REF's device while the watcher of
`_make_outgoing_connection` is subscribed: its arrival time (seconds after
the wait began) and its transport. -/
structure RefConnectionEvent where
  time : Nat
  transport : Transport
  deriving DecidableEq, Repr

/-- Outcome of a successful `_make_outgoing_connection`: the connection the
future resolved with, and whether `stop_advertising` ran. -/
structure OutgoingConnectionResult where
  connection : RefConnectionEvent
  advertisingStopped : Bool
  deriving DecidableEq, Repr

/-- Failure class of one connection-establishment attempt: the bounded wait
of `assert_not_timeout` expired. -/
inductive ConnectionError
  | timeout
  deriving DecidableEq, Repr

/-- The watcher handler of `_make_outgoing_connection` resolves the future
with the first `connection` event whose transport is `BT_LE_TRANSPORT`. -/
def firstLeConnectionEvent (events : List RefConnectionEvent) :
    Option RefConnectionEvent :=
  events.find? (fun e => e.transport == .LE)

/-- `_make_outgoing_connection`: REF advertises, DUT connects
(`createBond` or a GATT connect, by `create_bond`), and the watcher future
is awaited under `assert_not_timeout(15)`.  On success `stop_advertising`
runs and the connection is returned; when no LE `connection` event arrives
within the bound the attempt fails with a `Timeout` error. -/
def make_outgoing_connection (create_bond : Bool)
    (events : List RefConnectionEvent) :
    Except ConnectionError OutgoingConnectionResult :=
  let _ := create_bond
  match firstLeConnectionEvent events with
  | some e =>
    if e.time ≤ DEFAULT_STEP_TIMEOUT_SECONDS then
      .ok ⟨e, true⟩
    else
      .error .timeout
  | none => .error .timeout

/-- Modelled from the spec: `retry.retry_on_exception` (navi/utils/retry.py
is not under src/) classifies `Timeout` as a retryable failure. -/
def retryableConnectionError : ConnectionError → Bool
  | .timeout => true

/-- Observable endpoint-control actions of `_make_incoming_connection`
(the advertising actions carry the per-attempt service UUID token). -/
inductive ConnectionAction
  | startAdvertising (serviceUuid : Nat)
  | startScanning
  | stopScanning
  | connect
  | readRemoteFeatures
  | stopAdvertising (serviceUuid : Nat)
  deriving DecidableEq, Repr

/-- One `_make_incoming_connection` attempt with its `uuid.uuid4()` token:
DUT starts the legacy advertiser, then inside the `with advertise, ...`
scope REF scans; when the scan-result future resolves in time, REF stops
scanning, connects and reads the remote LE features; either way the
advertise scope exit stops DUT's advertising before the attempt returns or
its exception propagates.  Returns the action trace and success. -/
def make_incoming_connection (serviceUuid : Nat) (scanResolvesInTime : Bool) :
    List ConnectionAction × Bool :=
  if scanResolvesInTime then
    ([.startAdvertising serviceUuid, .startScanning, .stopScanning,
      .connect, .readRemoteFeatures, .stopAdvertising serviceUuid], true)
  else
    ([.startAdvertising serviceUuid, .startScanning,
      .stopAdvertising serviceUuid], false)

/-- Modelled from the spec: the `retry.retry_on_exception` wrapper
re-invokes `_make_incoming_connection` after a retryable failure; each
invocation draws the next fresh `uuid.uuid4()` token from the supply.
Each list entry is one attempt: its token and whether its scan resolves in
time.  Returns the concatenated trace and overall success. -/
def retryIncomingConnection : List (Nat × Bool) → List ConnectionAction × Bool
  | [] => ([], false)
  | (tok, scanOk) :: rest =>
    let attempt := make_incoming_connection tok scanOk
    if attempt.snd then
      (attempt.fst, true)
    else
      let next := retryIncomingConnection rest
      (attempt.fst ++ next.fst, next.snd)

/-- The service-UUID tokens of the `startAdvertising` actions of a trace,
in order. -/
def advertisingStartTokens : List ConnectionAction → List Nat
  | [] => []
  | .startAdvertising t :: rest => t :: advertisingStartTokens rest
  | _ :: rest => advertisingStartTokens rest

/-- Scans a trace carrying the set of currently advertising tokens:
`true` when no `startAdvertising` ever happens while another advertisement
is still active (so at most one advertisement, hence never two with the
same token, is active at any point). -/
def advertisingScopesDisjoint : List Nat → List ConnectionAction → Bool
  | _, [] => true
  | active, .startAdvertising t :: rest =>
    if active.isEmpty then advertisingScopesDisjoint [t] rest else false
  | active, .stopAdvertising t :: rest =>
    advertisingScopesDisjoint (active.erase t) rest
  | active, _ :: rest => advertisingScopesDisjoint active rest

/-! ## Extended HCI packet codec (navi/bumble_ext/hci.py)

`_HciPacket.from_parameters` walks the declared dataclass fields in
declaration order from `PARSE_OFFSET`, parsing each with
`hci.HCI_Object.parse_field`; the `parameters` property serializes the same
fields in the same order with `hci.HCI_Object.serialize_field`.  The bumble
field codecs are external collaborators, abstracted as `FieldCodec`s. -/

/-- A decoded field value (bumble field values are ints or byte strings). -/
inductive FieldValue
  | int (n : Nat)
  | raw (bytes : List Nat)
  deriving DecidableEq, Repr

/-- One field's type metadata: `hci.HCI_Object.parse_field` reading a value
and its consumed size at an offset, and `hci.HCI_Object.serialize_field`
writing a value back (bumble library, external collaborator). -/
structure FieldCodec where
  parse : List Nat → Nat → Option (FieldValue × Nat)
  serialize : FieldValue → List Nat

/-- A bumble field codec is lawful when serializing a parsed value writes
back exactly the consumed bytes, and the consumed bytes lie inside the
input. -/
def LawfulFieldCodec (codec : FieldCodec) : Prop :=
  ∀ data offset v size, codec.parse data offset = some (v, size) →
    codec.serialize v = ((data.drop offset).take size)
      ∧ offset + size ≤ data.length

/-- `_HciPacket.PARSE_OFFSET` of the base class. -/
def HciPacket_PARSE_OFFSET : Nat := 0

/-- `VendorEvent.PARSE_OFFSET`. -/
def VendorEvent_PARSE_OFFSET : Nat := 1

/-- `_HciPacket.from_parameters`: starting at the class's `PARSE_OFFSET`,
parse each declared field in declaration order, accumulating the offset;
returns the decoded values and the final offset (`none` when a field
fails to parse). -/
def from_parameters (schema : List FieldCodec) (data : List Nat) (offset : Nat) :
    Option (List FieldValue × Nat) :=
  match schema with
  | [] => some ([], offset)
  | codec :: rest =>
    match codec.parse data offset with
    | none => none
    | some (v, size) =>
      match from_parameters rest data (offset + size) with
      | none => none
      | some (vs, finalOffset) => some (v :: vs, finalOffset)

/-- The `parameters` property: serialize the declared fields in declaration
order and join the byte strings. -/
def hciParameters (schema : List FieldCodec) (values : List FieldValue) :
    List Nat :=
  match schema, values with
  | codec :: restSchema, v :: restValues =>
    codec.serialize v ++ hciParameters restSchema restValues
  | _, _ => []

/-- A one-byte unsigned-int field codec (the witness instantiation of a
bumble metadata-1 field). -/
def uint8Codec : FieldCodec where
  parse data offset :=
    if offset < data.length then
      some (.int (data.getD offset 0), 1)
    else
      none
  serialize v :=
    match v with
    | .int n => [n]
    | .raw bs => bs

/-! ## Concrete inputs for the per-claim witnesses and counterexamples -/

/-- Fallback run result for the `runResultOr` extractor. -/
def fallbackRunResult : RunResult where
  actions := []
  dutPairingEvent := ⟨"", .PIN, 0⟩
  refPairingEvent := ⟨.JUST_WORK, .absent⟩
  tableAnswer := ⟨.JUST_WORK, .absent⟩
  refAnswers := []
  resolutionConfirmation := none
  terminalBondState := .NONE

/-- The run result of a successful case (the fallback on failure). -/
def runResultOr (fallback : RunResult) :
    Except TestError RunResult → RunResult
  | .ok r => r
  | .error _ => fallback

/-- Witness case for the terminal-bond-state claim: ACCEPT over an
outgoing connection with outgoing pairing. -/
def case1w : ScenarioCase :=
  ⟨.ACCEPT, .OUTGOING, .OUTGOING, .NO_OUTPUT_NO_INPUT, .RANDOM, 3⟩

/-- Witness environment for the terminal-bond-state claim. -/
def env1w : Env where
  refRandomAddress := "AA"
  refPublicAddress := "BB"
  dutPairingRequests := [⟨"AA", .CONSENT, 0⟩]
  refPairingEvents := [⟨.JUST_WORK, .boolean true⟩]
  bondStateEvents := [⟨.BONDED⟩]
  refPairResult := none

/-- Witness run result for the terminal-bond-state claim. -/
def run1w : RunResult :=
  runResultOr fallbackRunResult (test_secure_pairing case1w env1w)

/-- Counterexample case for the pair-task claim: pairing direction INCOMING
but connection direction OUTGOING, so `ref_dut.request_pairing()` runs and
no `pair_task` is ever created. -/
def case2x : ScenarioCase :=
  ⟨.ACCEPT, .OUTGOING, .INCOMING, .NO_OUTPUT_NO_INPUT, .RANDOM, 3⟩

/-- Counterexample environment for the pair-task claim: REF's pairing
outcome would be an unexpected error class, yet the case passes because the
orchestrator never awaits any task. -/
def env2x : Env where
  refRandomAddress := "AA"
  refPublicAddress := "BB"
  dutPairingRequests := [⟨"AA", .CONSENT, 0⟩, ⟨"AA", .CONSENT, 0⟩]
  refPairingEvents := [⟨.JUST_WORK, .boolean true⟩]
  bondStateEvents := [⟨.BONDED⟩]
  refPairResult := some .otherError

/-- Witness case for the amended pair-task claim: REJECT over an incoming
connection with incoming pairing (a real `pair_task` exists). -/
def case2w : ScenarioCase :=
  ⟨.REJECT, .INCOMING, .INCOMING, .NO_OUTPUT_NO_INPUT, .RANDOM, 3⟩

/-- Witness environment for the amended pair-task claim. -/
def env2w : Env where
  refRandomAddress := "AA"
  refPublicAddress := "BB"
  dutPairingRequests := [⟨"AA", .CONSENT, 0⟩]
  refPairingEvents := [⟨.JUST_WORK, .boolean true⟩]
  bondStateEvents := [⟨.NONE⟩]
  refPairResult := some .protocolError

/-- Witness run result for the amended pair-task claim. -/
def run2w : RunResult :=
  runResultOr fallbackRunResult (test_secure_pairing case2w env2w)

/-- Counterexample case for the compared-value claim: the
numeric-comparison capability. -/
def case3x : ScenarioCase :=
  ⟨.ACCEPT, .OUTGOING, .OUTGOING, .DISPLAY_OUTPUT_AND_YES_NO_INPUT, .RANDOM, 3⟩

/-- Counterexample environment for the compared-value claim: DUT reports
pin 123 while REF reports value 999, and the case still passes. -/
def env3x : Env where
  refRandomAddress := "AA"
  refPublicAddress := "BB"
  dutPairingRequests := [⟨"AA", .PASSKEY_CONFIRMATION, 123⟩]
  refPairingEvents := [⟨.NUMERIC_COMPARISON, .number 999⟩]
  bondStateEvents := [⟨.BONDED⟩]
  refPairResult := none

/-- Witness case for the amended prompt-mapping claim. -/
def case3w : ScenarioCase :=
  ⟨.ACCEPT, .OUTGOING, .OUTGOING, .DISPLAY_OUTPUT_AND_YES_NO_INPUT, .PUBLIC, 3⟩

/-- Witness environment for the amended prompt-mapping claim. -/
def env3w : Env where
  refRandomAddress := "AA"
  refPublicAddress := "BB"
  dutPairingRequests := [⟨"BB", .PASSKEY_CONFIRMATION, 456⟩]
  refPairingEvents := [⟨.NUMERIC_COMPARISON, .number 456⟩]
  bondStateEvents := [⟨.BONDED⟩]
  refPairResult := none

/-- Witness run result for the amended prompt-mapping claim. -/
def run3w : RunResult :=
  runResultOr fallbackRunResult (test_secure_pairing case3w env3w)

/-- Counterexample case for the answer-discipline claim: ACCEPT. -/
def case5x : ScenarioCase :=
  ⟨.ACCEPT, .OUTGOING, .OUTGOING, .NO_OUTPUT_NO_INPUT, .RANDOM, 3⟩

/-- Counterexample environment for the answer-discipline claim. -/
def env5x : Env where
  refRandomAddress := "AA"
  refPublicAddress := "BB"
  dutPairingRequests := [⟨"AA", .CONSENT, 0⟩]
  refPairingEvents := [⟨.JUST_WORK, .boolean true⟩]
  bondStateEvents := [⟨.BONDED⟩]
  refPairResult := none

/-- Witness case for the amended answer-discipline claim: DISCONNECTED
over an incoming connection with incoming pairing. -/
def case5w : ScenarioCase :=
  ⟨.DISCONNECTED, .INCOMING, .INCOMING, .NO_OUTPUT_NO_INPUT, .PUBLIC, 3⟩

/-- Witness environment for the amended answer-discipline claim. -/
def env5w : Env where
  refRandomAddress := "AA"
  refPublicAddress := "BB"
  dutPairingRequests := [⟨"BB", .CONSENT, 0⟩]
  refPairingEvents := [⟨.JUST_WORK, .boolean true⟩]
  bondStateEvents := [⟨.NONE⟩]
  refPairResult := some .cancelledError

/-- Witness run result for the amended answer-discipline claim. -/
def run5w : RunResult :=
  runResultOr fallbackRunResult (test_secure_pairing case5w env5w)

/-- Witness case for the double-confirmation claim: outgoing connection
with incoming pairing direction. -/
def case6w : ScenarioCase :=
  ⟨.ACCEPT, .OUTGOING, .INCOMING, .DISPLAY_OUTPUT_AND_YES_NO_INPUT, .RANDOM, 11⟩

/-- Witness environment for the double-confirmation claim: two DUT pairing
requests; the second carries the comparison value. -/
def env6w : Env where
  refRandomAddress := "AA"
  refPublicAddress := "BB"
  dutPairingRequests :=
    [⟨"AA", .PASSKEY_CONFIRMATION, 111⟩, ⟨"AA", .PASSKEY_CONFIRMATION, 222⟩]
  refPairingEvents := [⟨.NUMERIC_COMPARISON, .number 222⟩]
  bondStateEvents := [⟨.BONDED⟩]
  refPairResult := none

/-- Witness run result for the double-confirmation claim. -/
def run6w : RunResult :=
  runResultOr fallbackRunResult (test_secure_pairing case6w env6w)

/-- Witness case for the REJECT-asymmetry claim. -/
def case7w : ScenarioCase :=
  ⟨.REJECT, .OUTGOING, .OUTGOING, .DISPLAY_OUTPUT_AND_YES_NO_INPUT, .RANDOM, 3⟩

/-- Witness environment for the REJECT-asymmetry claim. -/
def env7w : Env where
  refRandomAddress := "AA"
  refPublicAddress := "BB"
  dutPairingRequests := [⟨"AA", .PASSKEY_CONFIRMATION, 55⟩]
  refPairingEvents := [⟨.NUMERIC_COMPARISON, .number 55⟩]
  bondStateEvents := [⟨.NONE⟩]
  refPairResult := none

/-- Witness run result for the REJECT-asymmetry claim. -/
def run7w : RunResult :=
  runResultOr fallbackRunResult (test_secure_pairing case7w env7w)

/-- Adjacent-times ordering of a REF connection-event stream (the watcher
delivers events in emission order). -/
def timesSorted : List RefConnectionEvent → Bool
  | [] => true
  | [_] => true
  | a :: b :: rest => a.time ≤ b.time && timesSorted (b :: rest)

/-- Witness event stream for the outgoing-connection claim: a non-LE event
then an LE event within the bound. -/
def events8w : List RefConnectionEvent :=
  [⟨2, .CLASSIC⟩, ⟨3, .LE⟩]

/-! ## Helper lemmas -/

/-- A successful whole case decomposes into successful pairing stages and a
successful pair-task check. -/
theorem test_secure_pairing_ok_elim (c : ScenarioCase) (env : Env)
    (r : RunResult) (h : test_secure_pairing c env = .ok r) :
    ∃ pre pta, pairingStages c env = .ok pre
      ∧ checkRefPairTask c env.refPairResult = .ok pta
      ∧ r = { pre with actions := pre.actions ++ pta } := by
  unfold test_secure_pairing at h
  cases hps : pairingStages c env with
  | error e => rw [hps] at h; exact Except.noConfusion h
  | ok pre =>
    rw [hps] at h
    cases hct : checkRefPairTask c env.refPairResult with
    | error e => rw [hct] at h; exact Except.noConfusion h
    | ok pta =>
      rw [hct] at h
      exact ⟨pre, pta, rfl, rfl, (Except.ok.injEq _ _ |>.mp h).symm⟩

/-- A successful pairing-stage run, decomposed into its constituent waits,
lookups and assertions. -/
theorem pairingStages_ok_elim (c : ScenarioCase) (env : Env)
    (pre : RunResult) (h : pairingStages c env = .ok pre) :
    ∃ dutEvent dutWaitActions refEvent expectedDutVariant expectedRefVariant
        refAnswer bondEvent bondRest,
      awaitDutPairingEvent c (ref_addr c env) env.dutPairingRequests
          = some (dutEvent, dutWaitActions)
        ∧ env.refPairingEvents.head? = some refEvent
        ∧ expectedPairingTable c.ref_io_capability dutEvent.pin
            = some (expectedDutVariant, expectedRefVariant, refAnswer)
        ∧ dutEvent.variant = expectedDutVariant
        ∧ refEvent.variant = expectedRefVariant
        ∧ waitForEvent (fun e => terminatedBondState e.state) env.bondStateEvents
            = some (bondEvent, bondRest)
        ∧ bondEvent.state
            = (if c.variant = .ACCEPT then android_constants.BondState.BONDED
               else android_constants.BondState.NONE)
        ∧ pre = { actions := connectingStage c ++ dutWaitActions
                    ++ [.waitRefPairingEvent]
                    ++ (dutConfirmationStage c.variant).fst
                    ++ (refConfirmationStage c.variant refAnswer).fst
                    ++ [.waitBondStateChanged],
                  dutPairingEvent := dutEvent,
                  refPairingEvent := refEvent,
                  tableAnswer := refAnswer,
                  refAnswers := (refConfirmationStage c.variant refAnswer).snd,
                  resolutionConfirmation := (dutConfirmationStage c.variant).snd,
                  terminalBondState := bondEvent.state } := by
  unfold pairingStages at h
  simp only [] at h
  split at h
  next h1 => exact Except.noConfusion h
  next dutEvent dutWaitActions h1 =>
    split at h
    next h2 => exact Except.noConfusion h
    next refEvent h2 =>
      split at h
      next h3 => exact Except.noConfusion h
      next expectedDutVariant expectedRefVariant refAnswer h3 =>
        split at h
        next h4 =>
          split at h
          next h5 =>
            split at h
            next h6 => exact Except.noConfusion h
            next bondEvent bondRest h6 =>
              split at h
              next h7 =>
                split at h
                next h8 =>
                  refine ⟨dutEvent, dutWaitActions, refEvent, expectedDutVariant,
                    expectedRefVariant, refAnswer, bondEvent, bondRest,
                    h1, h2, h3, eq_of_beq h4, eq_of_beq h5, h6, ?_, ?_⟩
                  · rw [eq_of_beq h8, if_pos (eq_of_beq h7)]
                  · exact ((Except.ok.injEq _ _).mp h).symm
                next h8 => exact Except.noConfusion h
              next h7 =>
                split at h
                next h8 =>
                  have hne : c.variant ≠ .ACCEPT := by
                    intro hv
                    exact h7 (by simp [hv])
                  refine ⟨dutEvent, dutWaitActions, refEvent, expectedDutVariant,
                    expectedRefVariant, refAnswer, bondEvent, bondRest,
                    h1, h2, h3, eq_of_beq h4, eq_of_beq h5, h6, ?_, ?_⟩
                  · rw [eq_of_beq h8, if_neg hne]
                  · exact ((Except.ok.injEq _ _).mp h).symm
                next h8 => exact Except.noConfusion h
          next h5 => exact Except.noConfusion h
        next h4 => exact Except.noConfusion h

/-- Shapes of a successful DUT pairing-request wait: two waits with an
initial confirmation between them under double confirmation, one wait
otherwise, with the returned event the last one matched. -/
theorem awaitDutPairingEvent_elim (c : ScenarioCase) (refAddr : String)
    (requests : List PairingRequest) (e : PairingRequest)
    (acts : List TestAction)
    (h : awaitDutPairingEvent c refAddr requests = some (e, acts)) :
    (need_double_confirmation c = true
        ∧ acts = [.waitDutPairingRequest, .setPairingConfirmation true,
            .waitDutPairingRequest]
        ∧ ∃ e1 rest1 rest2,
            waitForEvent (fun x => x.address == refAddr) requests
              = some (e1, rest1)
            ∧ waitForEvent (fun x => x.address == refAddr) rest1
              = some (e, rest2))
      ∨ (need_double_confirmation c = false
        ∧ acts = [.waitDutPairingRequest]
        ∧ ∃ rest1, waitForEvent (fun x => x.address == refAddr) requests
            = some (e, rest1)) := by
  unfold awaitDutPairingEvent at h
  split at h
  next h1 => exact Option.noConfusion h
  next e1 rest1 h1 =>
    split at h
    next hdouble =>
      split at h
      next h2 => exact Option.noConfusion h
      next e2 rest2 h2 =>
        obtain ⟨he, hacts⟩ := Prod.mk.injEq _ _ _ _ ▸ Option.some.injEq _ _ ▸ h
        left
        exact ⟨hdouble, hacts.symm, e1, rest1, rest2, h1, he ▸ h2⟩
    next hdouble =>
      obtain ⟨he, hacts⟩ := Prod.mk.injEq _ _ _ _ ▸ Option.some.injEq _ _ ▸ h
      right
      exact ⟨Bool.of_not_eq_true hdouble, hacts.symm, rest1, he ▸ h1⟩

/-- Shapes of a successful pair-task check: the await action exactly when a
pair task exists, and on a task error the error is in the expected list. -/
theorem checkRefPairTask_elim (c : ScenarioCase) (res : Option RefPairError)
    (pta : List TestAction) (h : checkRefPairTask c res = .ok pta) :
    (hasRefPairTask c = true
        ∧ pta = [.awaitRefPairTask]
        ∧ (res = none ∨ ∃ e, res = some e
            ∧ (expectedErrors c.variant).contains e = true))
      ∨ (hasRefPairTask c = false ∧ pta = []) := by
  unfold checkRefPairTask at h
  split at h
  next htask =>
    left
    cases res with
    | none =>
      simp only [Except.ok.injEq] at h
      exact ⟨htask, h.symm, Or.inl rfl⟩
    | some e =>
      simp only [] at h
      split at h
      next hmem =>
        simp only [Except.ok.injEq] at h
        exact ⟨htask, h.symm, Or.inr ⟨e, rfl, hmem⟩⟩
      next hmem => exact Except.noConfusion h
  next htask =>
    simp only [Except.ok.injEq] at h
    exact Or.inr ⟨Bool.of_not_eq_true htask, h.symm⟩

/-- The four concrete shapes of the connecting stage. -/
theorem connectingStage_cases (c : ScenarioCase) :
    connectingStage c = [.makeOutgoingConnection false, .requestPairing]
      ∨ connectingStage c = [.makeOutgoingConnection true, .clearBondStateEvents]
      ∨ connectingStage c = [.makeIncomingConnection, .createRefPairTask]
      ∨ connectingStage c = [.makeIncomingConnection, .createBond] := by
  cases hc : c.connection_direction <;> cases hp : c.pairing_direction <;>
    simp [connectingStage, hc, hp]

/-- The pairing stages never read `refPairResult`, so changing it does not
change their outcome. -/
theorem pairingStages_refPairResult_congr (c : ScenarioCase) (env : Env)
    (res : Option RefPairError) :
    pairingStages c { env with refPairResult := res } = pairingStages c env := by
  cases env
  rfl

/-! ## Claim theorems -/

/-- C1: for every valid `ScenarioCase`, when the orchestrator finishes the
case successfully, the DUT's terminal BondState equals BONDED iff the
TestVariant is ACCEPT, and equals NONE for every other variant. -/
theorem terminal_bond_state_matches_variant
    (c : ScenarioCase) (env : Env) (r : RunResult)
    (_hmatrix : c ∈ scenarioMatrix)
    (h : test_secure_pairing c env = .ok r) :
    (r.terminalBondState = .BONDED ↔ c.variant = .ACCEPT)
      ∧ (c.variant ≠ .ACCEPT → r.terminalBondState = .NONE) := by
  obtain ⟨pre, pta, hps, hct, hr⟩ := test_secure_pairing_ok_elim c env r h
  obtain ⟨dutEvent, dwa, refEvent, edv, erv, ans, bondEvent, bondRest,
    _, _, _, _, _, _, hstate, hpre⟩ := pairingStages_ok_elim c env pre hps
  have ht : r.terminalBondState = bondEvent.state := by
    rw [hr, hpre]
  rw [ht, hstate]
  by_cases hv : c.variant = .ACCEPT
  · simp [hv]
  · simp [hv]

/-- C1 witness: a concrete valid ACCEPT case ends BONDED. -/
theorem terminal_bond_state_matches_variant_witness :
    case1w ∈ scenarioMatrix
      ∧ test_secure_pairing case1w env1w = .ok run1w
      ∧ ((run1w.terminalBondState = .BONDED ↔ case1w.variant = .ACCEPT)
        ∧ (case1w.variant ≠ .ACCEPT → run1w.terminalBondState = .NONE)) :=
  ⟨by decide, by rfl,
    terminal_bond_state_matches_variant case1w env1w run1w
      (by decide) (by rfl)⟩

/-- Success of a case whose pairing stages succeed, as a function of the
pair-task result, when a pair task exists. -/
theorem runOk_modified_env (c : ScenarioCase) (env : Env) (pre : RunResult)
    (res : Option RefPairError) (hps : pairingStages c env = .ok pre)
    (htask : hasRefPairTask c = true) :
    runOk (test_secure_pairing c { env with refPairResult := res }) = true
      ↔ (res = none ∨ ∃ e, res = some e
          ∧ (expectedErrors c.variant).contains e = true) := by
  unfold test_secure_pairing
  rw [pairingStages_refPairResult_congr c env res, hps]
  simp only []
  unfold checkRefPairTask
  rw [htask]
  simp only [if_true]
  cases res with
  | none => simp [runOk]
  | some e =>
    by_cases hmem : (expectedErrors c.variant).contains e = true
    · have hm : e ∈ expectedErrors c.variant := List.mem_of_elem_eq_true hmem
      simp [hm, hmem, runOk]
    · have hm : e ∉ expectedErrors c.variant := fun hmm =>
        hmem (List.elem_eq_true_of_mem hmm)
      simp [hm, hmem, runOk]

/-- C2 counterexample: a case with pairing direction INCOMING but
connection direction OUTGOING passes without the orchestrator ever
awaiting a REF pairing task, even though REF's pairing outcome is an
unexpected error class. -/
theorem ref_pair_task_not_awaited_for_outgoing_connection :
    case2x.pairing_direction = .INCOMING
      ∧ env2x.refPairResult = some .otherError
      ∧ runOk (test_secure_pairing case2x env2x) = true
      ∧ (runActions (test_secure_pairing case2x env2x)).contains
          .awaitRefPairTask = false := by
  exact ⟨rfl, rfl, by rfl, by rfl⟩

/-- C2 (amended): for every case whose connection direction and pairing
direction are both INCOMING — exactly the cases where REF has an
outstanding pairing task — a successful run awaits the task, and with the
same environment the case succeeds for a pair-task result exactly when it
is no error, a ProtocolError under REJECT or REJECTED, or a Cancelled
under DISCONNECTED; any other error class fails the case. -/
theorem ref_pair_task_error_discipline
    (c : ScenarioCase) (env : Env) (r : RunResult)
    (hconn : c.connection_direction = .INCOMING)
    (hpair : c.pairing_direction = .INCOMING)
    (h : test_secure_pairing c env = .ok r) :
    TestAction.awaitRefPairTask ∈ r.actions
      ∧ ∀ res : Option RefPairError,
          runOk (test_secure_pairing c { env with refPairResult := res }) = true
            ↔ (res = none
              ∨ ((c.variant = .REJECT ∨ c.variant = .REJECTED)
                  ∧ res = some .protocolError)
              ∨ (c.variant = .DISCONNECTED ∧ res = some .cancelledError)) := by
  obtain ⟨pre, pta, hps, hct, hr⟩ := test_secure_pairing_ok_elim c env r h
  have htask : hasRefPairTask c = true := by
    simp [hasRefPairTask, hconn, hpair]
  refine ⟨?_, ?_⟩
  · obtain h1 | h2 := checkRefPairTask_elim c env.refPairResult pta hct
    · rw [hr]
      simp [h1.2.1]
    · rw [h2.1] at htask
      exact Bool.noConfusion htask
  · intro res
    rw [runOk_modified_env c env pre res hps htask]
    obtain ⟨v, cd, pd, io, addr, kd⟩ := c
    cases res with
    | none => simp
    | some e => cases v <;> cases e <;> simp +decide [expectedErrors]

/-- C2 (amended) witness: a concrete REJECT case over a doubly incoming
direction whose pair task completed with ProtocolError. -/
theorem ref_pair_task_error_discipline_witness :
    case2w.connection_direction = .INCOMING
      ∧ case2w.pairing_direction = .INCOMING
      ∧ test_secure_pairing case2w env2w = .ok run2w
      ∧ (TestAction.awaitRefPairTask ∈ run2w.actions
        ∧ ∀ res : Option RefPairError,
            runOk (test_secure_pairing case2w
                { env2w with refPairResult := res }) = true
              ↔ (res = none
                ∨ ((case2w.variant = .REJECT ∨ case2w.variant = .REJECTED)
                    ∧ res = some .protocolError)
                ∨ (case2w.variant = .DISCONNECTED
                    ∧ res = some .cancelledError))) :=
  ⟨rfl, rfl, by rfl,
    ref_pair_task_error_discipline case2w env2w run2w rfl rfl (by rfl)⟩

/-- C3 counterexample: a numeric-comparison case passes although the value
REF reported (999) differs from the value DUT reported (123) — the
orchestrator never asserts the two reported values equal; it only relays
DUT's value in the answer. -/
theorem compared_values_not_asserted_equal :
    runOk (test_secure_pairing case3x env3x) = true
      ∧ (runResultOr fallbackRunResult
          (test_secure_pairing case3x env3x)).dutPairingEvent.pin = 123
      ∧ (runResultOr fallbackRunResult
          (test_secure_pairing case3x env3x)).refPairingEvent.arg
          ≠ .number ((runResultOr fallbackRunResult
              (test_secure_pairing case3x env3x)).dutPairingEvent.pin) := by
  exact ⟨by rfl, by rfl, by decide⟩

/-- C3 (amended): for every successful case the capability-to-variant
mapping is exact — NO_OUTPUT_NO_INPUT yields DUT-reported CONSENT and
REF-reported JUST_WORK with an accepting boolean answer, and
DISPLAY_OUTPUT_AND_YES_NO_INPUT yields DUT-reported PASSKEY_CONFIRMATION
and REF-reported NUMERIC_COMPARISON with the answer carrying exactly the
DUT-reported comparison value (REF's own reported value is not checked
against DUT's). -/
theorem io_capability_prompt_mapping
    (c : ScenarioCase) (env : Env) (r : RunResult)
    (h : test_secure_pairing c env = .ok r) :
    (c.ref_io_capability = .NO_OUTPUT_NO_INPUT →
        r.dutPairingEvent.variant = .CONSENT
          ∧ r.refPairingEvent.variant = .JUST_WORK
          ∧ r.tableAnswer = ⟨.JUST_WORK, .boolean true⟩)
      ∧ (c.ref_io_capability = .DISPLAY_OUTPUT_AND_YES_NO_INPUT →
        r.dutPairingEvent.variant = .PASSKEY_CONFIRMATION
          ∧ r.refPairingEvent.variant = .NUMERIC_COMPARISON
          ∧ r.tableAnswer
              = ⟨.NUMERIC_COMPARISON, .number r.dutPairingEvent.pin⟩) := by
  obtain ⟨pre, pta, hps, hct, hr⟩ := test_secure_pairing_ok_elim c env r h
  obtain ⟨dutEvent, dwa, refEvent, edv, erv, ans, bondEvent, bondRest,
    h1, h2, h3, h4, h5, h6, hstate, hpre⟩ := pairingStages_ok_elim c env pre hps
  have hdut : r.dutPairingEvent = dutEvent := by rw [hr, hpre]
  have href : r.refPairingEvent = refEvent := by rw [hr, hpre]
  have hans : r.tableAnswer = ans := by rw [hr, hpre]
  constructor
  · intro hio
    rw [hio] at h3
    unfold expectedPairingTable at h3
    simp only [Option.some.injEq, Prod.mk.injEq] at h3
    obtain ⟨he1, he2, he3⟩ := h3
    exact ⟨by rw [hdut, h4, ← he1], by rw [href, h5, ← he2],
      by rw [hans, ← he3]⟩
  · intro hio
    rw [hio] at h3
    unfold expectedPairingTable at h3
    simp only [Option.some.injEq, Prod.mk.injEq] at h3
    obtain ⟨he1, he2, he3⟩ := h3
    exact ⟨by rw [hdut, h4, ← he1], by rw [href, h5, ← he2],
      by rw [hans, ← he3, hdut]⟩

/-- C3 (amended) witness: a concrete numeric-comparison case with matching
values. -/
theorem io_capability_prompt_mapping_witness :
    test_secure_pairing case3w env3w = .ok run3w
      ∧ ((case3w.ref_io_capability = .NO_OUTPUT_NO_INPUT →
            run3w.dutPairingEvent.variant = .CONSENT
              ∧ run3w.refPairingEvent.variant = .JUST_WORK
              ∧ run3w.tableAnswer = ⟨.JUST_WORK, .boolean true⟩)
        ∧ (case3w.ref_io_capability = .DISPLAY_OUTPUT_AND_YES_NO_INPUT →
            run3w.dutPairingEvent.variant = .PASSKEY_CONFIRMATION
              ∧ run3w.refPairingEvent.variant = .NUMERIC_COMPARISON
              ∧ run3w.tableAnswer
                  = ⟨.NUMERIC_COMPARISON, .number run3w.dutPairingEvent.pin⟩)) :=
  ⟨by rfl, io_capability_prompt_mapping case3w env3w run3w (by rfl)⟩

/-- C4: the executed scenario matrix is the full cross-product, in the same
deterministic cross-product order, minus exactly the tuples matching either
exclusion guard; its size equals the full cross-product size minus the
count of tuples matching either guard. -/
theorem scenario_matrix_is_filtered_cross_product :
    scenarioMatrix
        = fullCrossProduct.filter (fun c => !matchesEitherExclusion c)
      ∧ scenarioMatrix.length =
        fullCrossProduct.length
          - (fullCrossProduct.filter
              (fun c => matchesEitherExclusion c)).length := by
  decide

/-- C5 counterexample: in an ACCEPT case the orchestrator takes exactly one
PairingEvent from the delegate's inbound queue but enqueues two answers on
its outbound queue, so the 1:1 request/response discipline does not hold. -/
theorem accept_variant_enqueues_two_answers :
    runOk (test_secure_pairing case5x env5x) = true
      ∧ (runActions (test_secure_pairing case5x env5x)).count
          .waitRefPairingEvent = 1
      ∧ (runResultOr fallbackRunResult
          (test_secure_pairing case5x env5x)).refAnswers.length = 2 := by
  exact ⟨by rfl, by rfl, by rfl⟩

/-- C5 (amended): every successful case takes exactly one PairingEvent from
the delegate's inbound queue; REJECTED and DISCONNECTED enqueue exactly one
answer, while ACCEPT and REJECT enqueue the same accepting answer twice
(the match arm and the unconditional trailing put); for DISCONNECTED no
answer is enqueued before the link is torn down from REF's side. -/
theorem answer_discipline_per_variant
    (c : ScenarioCase) (env : Env) (r : RunResult)
    (h : test_secure_pairing c env = .ok r) :
    r.actions.count .waitRefPairingEvent = 1
      ∧ ((c.variant = .REJECTED ∨ c.variant = .DISCONNECTED) →
          r.refAnswers.length = 1)
      ∧ ((c.variant = .ACCEPT ∨ c.variant = .REJECT) →
          r.refAnswers = [r.tableAnswer, r.tableAnswer])
      ∧ (c.variant = .DISCONNECTED → putsBeforeDisconnect r.actions = 0) := by
  obtain ⟨v, cd, pd, io, addr, kd⟩ := c
  obtain ⟨pre, pta, hps, hct, hr⟩ := test_secure_pairing_ok_elim _ env r h
  obtain ⟨dutEvent, dwa, refEvent, edv, erv, ans, bondEvent, bondRest,
    h1, h2, h3, h4, h5, h6, hstate, hpre⟩ :=
    pairingStages_ok_elim _ env pre hps
  have hact : r.actions
      = connectingStage ⟨v, cd, pd, io, addr, kd⟩ ++ dwa
        ++ [.waitRefPairingEvent] ++ (dutConfirmationStage v).fst
        ++ (refConfirmationStage v ans).fst ++ [.waitBondStateChanged]
        ++ pta := by
    rw [hr, hpre]
  have hansr : r.refAnswers = (refConfirmationStage v ans).snd := by
    rw [hr, hpre]
  have htab : r.tableAnswer = ans := by
    rw [hr, hpre]
  rw [hact, hansr, htab]
  rcases awaitDutPairingEvent_elim _ _ _ _ _ h1 with ⟨_, hdw, _⟩ | ⟨_, hdw, _⟩ <;>
    rcases checkRefPairTask_elim _ _ _ hct with ⟨_, hpta, _⟩ | ⟨_, hpta⟩ <;>
    subst hdw <;> subst hpta <;>
    rcases connectingStage_cases ⟨v, cd, pd, io, addr, kd⟩
      with hcs | hcs | hcs | hcs <;>
    rw [hcs] <;> cases v <;>
    exact ⟨by rfl,
      fun hv => by first | rfl | ((rcases hv with hh | hh) <;> simp at hh),
      fun hv => by first | rfl | ((rcases hv with hh | hh) <;> simp at hh),
      fun hv => by first | rfl | simp at hv⟩

/-- C5 (amended) witness: a concrete DISCONNECTED case. -/
theorem answer_discipline_per_variant_witness :
    test_secure_pairing case5w env5w = .ok run5w
      ∧ (run5w.actions.count .waitRefPairingEvent = 1
        ∧ ((case5w.variant = .REJECTED ∨ case5w.variant = .DISCONNECTED) →
            run5w.refAnswers.length = 1)
        ∧ ((case5w.variant = .ACCEPT ∨ case5w.variant = .REJECT) →
            run5w.refAnswers = [run5w.tableAnswer, run5w.tableAnswer])
        ∧ (case5w.variant = .DISCONNECTED →
            putsBeforeDisconnect run5w.actions = 0)) :=
  ⟨by rfl, answer_discipline_per_variant case5w env5w run5w (by rfl)⟩

/-- The connecting stage contains no DUT pairing-request wait. -/
theorem count_waitDut_connectingStage (c : ScenarioCase) :
    (connectingStage c).count .waitDutPairingRequest = 0 := by
  rcases connectingStage_cases c with hcs | hcs | hcs | hcs <;> rw [hcs] <;> rfl

/-- The DUT confirmation stage contains no DUT pairing-request wait. -/
theorem count_waitDut_dutConfirm (v : TestVariant) :
    ((dutConfirmationStage v).fst).count .waitDutPairingRequest = 0 := by
  cases v <;> rfl

/-- The REF confirmation stage contains no DUT pairing-request wait. -/
theorem count_waitDut_refConfirm (v : TestVariant)
    (ans : pairing_utils.PairingEvent) :
    ((refConfirmationStage v ans).fst).count .waitDutPairingRequest = 0 := by
  cases v <;> rfl

/-- C6: a successful double-confirmation case (outgoing connection with
incoming pairing direction) waits for exactly two DUT pairing-request
events, answers an initial confirmation between them, and uses the second
event as the final `dut_pairing_event`; every other direction combination
waits exactly once and uses the first matching event. -/
theorem double_confirmation_event_counts
    (c : ScenarioCase) (env : Env) (r : RunResult)
    (h : test_secure_pairing c env = .ok r) :
    (need_double_confirmation c = true →
        r.actions.count .waitDutPairingRequest = 2
          ∧ confirmationBetweenWaits r.actions = true
          ∧ ∃ e1 rest1 rest2,
              waitForEvent (fun e => e.address == ref_addr c env)
                  env.dutPairingRequests = some (e1, rest1)
                ∧ waitForEvent (fun e => e.address == ref_addr c env) rest1
                    = some (r.dutPairingEvent, rest2))
      ∧ (need_double_confirmation c = false →
        r.actions.count .waitDutPairingRequest = 1
          ∧ ∃ rest1,
              waitForEvent (fun e => e.address == ref_addr c env)
                  env.dutPairingRequests = some (r.dutPairingEvent, rest1)) := by
  obtain ⟨pre, pta, hps, hct, hr⟩ := test_secure_pairing_ok_elim c env r h
  obtain ⟨dutEvent, dwa, refEvent, edv, erv, ans, bondEvent, bondRest,
    h1, h2, h3, h4, h5, h6, hstate, hpre⟩ :=
    pairingStages_ok_elim c env pre hps
  have hdut : r.dutPairingEvent = dutEvent := by rw [hr, hpre]
  have hact : r.actions
      = connectingStage c ++ dwa ++ [.waitRefPairingEvent]
        ++ (dutConfirmationStage c.variant).fst
        ++ (refConfirmationStage c.variant ans).fst
        ++ [.waitBondStateChanged] ++ pta := by
    rw [hr, hpre]
  rcases awaitDutPairingEvent_elim _ _ _ _ _ h1
    with ⟨hd, hdw, e1, rest1, rest2, hw1, hw2⟩ | ⟨hd, hdw, rest1, hw1⟩
  · subst hdw
    constructor
    · intro _
      refine ⟨?_, ?_, e1, rest1, rest2, hw1, by rw [hdut]; exact hw2⟩
      · rw [hact]
        simp [List.count_append, count_waitDut_connectingStage,
          count_waitDut_dutConfirm, count_waitDut_refConfirm]
        rcases checkRefPairTask_elim _ _ _ hct with ⟨_, hpta, _⟩ | ⟨_, hpta⟩ <;>
          subst hpta <;> rfl
      · rw [hact]
        rcases connectingStage_cases c with hcs | hcs | hcs | hcs <;>
          rw [hcs] <;> rfl
    · intro hnd
      rw [hnd] at hd
      exact Bool.noConfusion hd
  · subst hdw
    constructor
    · intro hnd
      rw [hnd] at hd
      exact Bool.noConfusion hd
    · intro _
      refine ⟨?_, rest1, by rw [hdut]; exact hw1⟩
      rw [hact]
      simp [List.count_append, count_waitDut_connectingStage,
        count_waitDut_dutConfirm, count_waitDut_refConfirm]
      rcases checkRefPairTask_elim _ _ _ hct with ⟨_, hpta, _⟩ | ⟨_, hpta⟩ <;>
        subst hpta <;> rfl

/-- C6 witness: a concrete double-confirmation case with two DUT
pairing-request events. -/
theorem double_confirmation_event_counts_witness :
    test_secure_pairing case6w env6w = .ok run6w
      ∧ ((need_double_confirmation case6w = true →
            run6w.actions.count .waitDutPairingRequest = 2
              ∧ confirmationBetweenWaits run6w.actions = true
              ∧ ∃ e1 rest1 rest2,
                  waitForEvent (fun e => e.address == ref_addr case6w env6w)
                      env6w.dutPairingRequests = some (e1, rest1)
                    ∧ waitForEvent
                        (fun e => e.address == ref_addr case6w env6w) rest1
                        = some (run6w.dutPairingEvent, rest2))
        ∧ (need_double_confirmation case6w = false →
            run6w.actions.count .waitDutPairingRequest = 1
              ∧ ∃ rest1,
                  waitForEvent (fun e => e.address == ref_addr case6w env6w)
                      env6w.dutPairingRequests
                    = some (run6w.dutPairingEvent, rest1))) :=
  ⟨by rfl, double_confirmation_event_counts case6w env6w run6w (by rfl)⟩

/-- C7: for REJECT the DUT side confirms false while REF's delegate is fed
the same accepting answer used for ACCEPT — the unmodified table answer,
which is `True` for just-works and the captured DUT comparison value for
numeric comparison — enqueued twice, exactly as for ACCEPT. -/
theorem reject_asymmetry_preserved
    (c : ScenarioCase) (env : Env) (r : RunResult)
    (h : test_secure_pairing c env = .ok r) :
    (c.variant = .REJECT →
        r.resolutionConfirmation = some false
          ∧ r.refAnswers = [r.tableAnswer, r.tableAnswer])
      ∧ (c.variant = .ACCEPT →
        r.resolutionConfirmation = some true
          ∧ r.refAnswers = [r.tableAnswer, r.tableAnswer])
      ∧ (c.ref_io_capability = .NO_OUTPUT_NO_INPUT →
          r.tableAnswer = ⟨.JUST_WORK, .boolean true⟩)
      ∧ (c.ref_io_capability = .DISPLAY_OUTPUT_AND_YES_NO_INPUT →
          r.tableAnswer
            = ⟨.NUMERIC_COMPARISON, .number r.dutPairingEvent.pin⟩) := by
  obtain ⟨pre, pta, hps, hct, hr⟩ := test_secure_pairing_ok_elim c env r h
  obtain ⟨dutEvent, dwa, refEvent, edv, erv, ans, bondEvent, bondRest,
    h1, h2, h3, h4, h5, h6, hstate, hpre⟩ :=
    pairingStages_ok_elim c env pre hps
  have hdut : r.dutPairingEvent = dutEvent := by rw [hr, hpre]
  have hres : r.resolutionConfirmation = (dutConfirmationStage c.variant).snd := by
    rw [hr, hpre]
  have hansr : r.refAnswers = (refConfirmationStage c.variant ans).snd := by
    rw [hr, hpre]
  have htab : r.tableAnswer = ans := by
    rw [hr, hpre]
  refine ⟨?_, ?_, ?_, ?_⟩
  · intro hv
    rw [hres, hansr, htab, hv]
    exact ⟨rfl, rfl⟩
  · intro hv
    rw [hres, hansr, htab, hv]
    exact ⟨rfl, rfl⟩
  · intro hio
    rw [hio] at h3
    unfold expectedPairingTable at h3
    simp only [Option.some.injEq, Prod.mk.injEq] at h3
    rw [htab, ← h3.2.2]
  · intro hio
    rw [hio] at h3
    unfold expectedPairingTable at h3
    simp only [Option.some.injEq, Prod.mk.injEq] at h3
    rw [htab, ← h3.2.2, hdut]

/-- C7 witness: a concrete REJECT numeric-comparison case. -/
theorem reject_asymmetry_preserved_witness :
    test_secure_pairing case7w env7w = .ok run7w
      ∧ ((case7w.variant = .REJECT →
            run7w.resolutionConfirmation = some false
              ∧ run7w.refAnswers = [run7w.tableAnswer, run7w.tableAnswer])
        ∧ (case7w.variant = .ACCEPT →
            run7w.resolutionConfirmation = some true
              ∧ run7w.refAnswers = [run7w.tableAnswer, run7w.tableAnswer])
        ∧ (case7w.ref_io_capability = .NO_OUTPUT_NO_INPUT →
            run7w.tableAnswer = ⟨.JUST_WORK, .boolean true⟩)
        ∧ (case7w.ref_io_capability = .DISPLAY_OUTPUT_AND_YES_NO_INPUT →
            run7w.tableAnswer
              = ⟨.NUMERIC_COMPARISON, .number run7w.dutPairingEvent.pin⟩)) :=
  ⟨by rfl, reject_asymmetry_preserved case7w env7w run7w (by rfl)⟩

/-- The tail of a time-ordered stream is time-ordered. -/
theorem timesSorted_tail (a : RefConnectionEvent) (l : List RefConnectionEvent)
    (h : timesSorted (a :: l) = true) : timesSorted l = true := by
  cases l with
  | nil => rfl
  | cons b t =>
    simp only [timesSorted, Bool.and_eq_true] at h
    exact h.2

/-- In a time-ordered stream the head's time bounds every later time. -/
theorem timesSorted_head_le (a : RefConnectionEvent)
    (l : List RefConnectionEvent) (h : timesSorted (a :: l) = true) :
    ∀ y ∈ l, a.time ≤ y.time := by
  induction l generalizing a with
  | nil => intro y hy; cases hy
  | cons b t ih =>
    intro y hy
    simp only [timesSorted, Bool.and_eq_true, decide_eq_true_eq] at h
    have hab : a.time ≤ b.time := h.1
    have ht : timesSorted (b :: t) = true := h.2
    rcases List.mem_cons.mp hy with rfl | hyt
    · exact hab
    · exact le_trans hab (ih b ht y hyt)

/-- The first LE event of a time-ordered stream is the earliest LE event. -/
theorem firstLe_min (l : List RefConnectionEvent) (e0 : RefConnectionEvent)
    (hf : List.find? (fun e => e.transport == Transport.LE) l = some e0)
    (hs : timesSorted l = true) :
    ∀ x ∈ l, x.transport = Transport.LE → e0.time ≤ x.time := by
  induction l with
  | nil => cases hf
  | cons a t ih =>
    intro x hx hLE
    rw [List.find?_cons] at hf
    cases hpa : (a.transport == Transport.LE) with
    | true =>
      rw [hpa] at hf
      simp only [Option.some.injEq] at hf
      subst hf
      rcases List.mem_cons.mp hx with rfl | hxt
      · exact le_refl _
      · exact timesSorted_head_le _ t hs x hxt
    | false =>
      rw [hpa] at hf
      simp only [] at hf
      rcases List.mem_cons.mp hx with rfl | hxt
      · rw [hLE] at hpa
        simp at hpa
      · exact ih hf (timesSorted_tail a t hs) x hxt hLE

/-- C8: when a LE-transport connection event reaches REF within the
15-second bound, `_make_outgoing_connection` stops REF's advertising and
returns that connection; when none does, the attempt fails with a Timeout
error, a retryable failure class. -/
theorem outgoing_connection_timeout_behavior
    (create_bond : Bool) (events : List RefConnectionEvent)
    (hsorted : timesSorted events = true) :
    ((∃ e ∈ events, e.transport = .LE
          ∧ e.time ≤ DEFAULT_STEP_TIMEOUT_SECONDS) →
        ∃ e, make_outgoing_connection create_bond events = .ok ⟨e, true⟩
          ∧ e ∈ events ∧ e.transport = .LE
          ∧ e.time ≤ DEFAULT_STEP_TIMEOUT_SECONDS)
      ∧ ((¬ ∃ e ∈ events, e.transport = .LE
            ∧ e.time ≤ DEFAULT_STEP_TIMEOUT_SECONDS) →
        make_outgoing_connection create_bond events = .error .timeout
          ∧ retryableConnectionError .timeout = true) := by
  cases hfind : firstLeConnectionEvent events with
  | none =>
    have hfind' : List.find? (fun e => e.transport == Transport.LE) events
        = none := hfind
    have hnone := List.find?_eq_none.mp hfind'
    constructor
    · rintro ⟨e, he, hLE, _⟩
      exact absurd (by simp [hLE]) (hnone e he)
    · intro _
      refine ⟨?_, rfl⟩
      simp [make_outgoing_connection, hfind]
  | some e0 =>
    have hfind' : List.find? (fun e => e.transport == Transport.LE) events
        = some e0 := hfind
    have hmem : e0 ∈ events := List.mem_of_find?_eq_some hfind'
    have hLE0 : e0.transport = .LE := by
      have hp := List.find?_some hfind'
      simp only [beq_iff_eq] at hp
      exact hp
    by_cases h15 : e0.time ≤ DEFAULT_STEP_TIMEOUT_SECONDS
    · have hok : make_outgoing_connection create_bond events
          = .ok ⟨e0, true⟩ := by
        simp [make_outgoing_connection, hfind, h15]
      constructor
      · intro _
        exact ⟨e0, hok, hmem, hLE0, h15⟩
      · intro hno
        exact absurd ⟨e0, hmem, hLE0, h15⟩ hno
    · have herr : make_outgoing_connection create_bond events
          = .error .timeout := by
        simp [make_outgoing_connection, hfind, h15]
      constructor
      · rintro ⟨e, he, hLE, hle⟩
        exact absurd (le_trans (firstLe_min events e0 hfind' hsorted e he hLE)
          hle) h15
      · intro _
        exact ⟨herr, rfl⟩

/-- C8 witness: a concrete time-ordered stream whose LE event arrives at
second 3. -/
theorem outgoing_connection_timeout_behavior_witness :
    timesSorted events8w = true
      ∧ (((∃ e ∈ events8w, e.transport = .LE
              ∧ e.time ≤ DEFAULT_STEP_TIMEOUT_SECONDS) →
            ∃ e, make_outgoing_connection false events8w = .ok ⟨e, true⟩
              ∧ e ∈ events8w ∧ e.transport = .LE
              ∧ e.time ≤ DEFAULT_STEP_TIMEOUT_SECONDS)
        ∧ ((¬ ∃ e ∈ events8w, e.transport = .LE
              ∧ e.time ≤ DEFAULT_STEP_TIMEOUT_SECONDS) →
            make_outgoing_connection false events8w = .error .timeout
              ∧ retryableConnectionError .timeout = true)) :=
  ⟨by decide, outgoing_connection_timeout_behavior false events8w (by decide)⟩

/-- C9: with a fresh token per attempt (distinct uuid4 draws), a timeout on
attempt 1 followed by a successful attempt 2 yields exactly the trace in
which attempt 1's advertising stops before attempt 2's starts, the two
advertisements carry distinct tokens, and — for any attempt sequence — no
advertisement ever starts while another is still active. -/
theorem incoming_connection_fresh_token_no_overlap (t1 t2 : Nat)
    (h : t1 ≠ t2) :
    retryIncomingConnection [(t1, false), (t2, true)]
        = ([.startAdvertising t1, .startScanning, .stopAdvertising t1,
            .startAdvertising t2, .startScanning, .stopScanning, .connect,
            .readRemoteFeatures, .stopAdvertising t2], true)
      ∧ advertisingStartTokens
          (retryIncomingConnection [(t1, false), (t2, true)]).fst = [t1, t2]
      ∧ (advertisingStartTokens
          (retryIncomingConnection [(t1, false), (t2, true)]).fst).Nodup
      ∧ ∀ attempts : List (Nat × Bool),
          advertisingScopesDisjoint []
            (retryIncomingConnection attempts).fst = true := by
  refine ⟨rfl, rfl, ?_, ?_⟩
  · show List.Nodup [t1, t2]
    simp [h]
  intro attempts
  induction attempts with
  | nil => rfl
  | cons a rest ih =>
    obtain ⟨tok, scanOk⟩ := a
    cases scanOk with
    | true =>
      simp [retryIncomingConnection, make_incoming_connection,
        advertisingScopesDisjoint, List.erase_cons_head]
    | false =>
      simp [retryIncomingConnection, make_incoming_connection,
        advertisingScopesDisjoint, List.erase_cons_head, ih]

/-- C9 witness: tokens 0 and 1. -/
theorem incoming_connection_fresh_token_no_overlap_witness :
    (0 : Nat) ≠ 1
      ∧ (retryIncomingConnection [(0, false), (1, true)]
          = ([.startAdvertising 0, .startScanning, .stopAdvertising 0,
              .startAdvertising 1, .startScanning, .stopScanning, .connect,
              .readRemoteFeatures, .stopAdvertising 1], true)
        ∧ advertisingStartTokens
            (retryIncomingConnection [(0, false), (1, true)]).fst = [0, 1]
        ∧ (advertisingStartTokens
            (retryIncomingConnection [(0, false), (1, true)]).fst).Nodup
        ∧ ∀ attempts : List (Nat × Bool),
            advertisingScopesDisjoint []
              (retryIncomingConnection attempts).fst = true) :=
  ⟨by decide, incoming_connection_fresh_token_no_overlap 0 1 (by decide)⟩

/-- Serializing the values decoded by `from_parameters` reproduces exactly
the consumed slice of the input. -/
theorem from_parameters_serializes (schema : List FieldCodec) :
    ∀ (data : List Nat) (offset : Nat) (values : List FieldValue)
      (finalOffset : Nat),
      (∀ codec ∈ schema, LawfulFieldCodec codec) →
      from_parameters schema data offset = some (values, finalOffset) →
      hciParameters schema values
          = (data.drop offset).take (finalOffset - offset)
        ∧ offset ≤ finalOffset := by
  induction schema with
  | nil =>
    intro data offset values finalOffset _ hp
    unfold from_parameters at hp
    simp only [Option.some.injEq, Prod.mk.injEq] at hp
    obtain ⟨hv, hf⟩ := hp
    subst hv
    subst hf
    exact ⟨by simp [hciParameters], le_refl _⟩
  | cons codec rest ih =>
    intro data offset values finalOffset hlaw hp
    unfold from_parameters at hp
    split at hp
    next hc => exact Option.noConfusion hp
    next v size hc =>
      split at hp
      next hrec => exact Option.noConfusion hp
      next vs fo hrec =>
        simp only [Option.some.injEq, Prod.mk.injEq] at hp
        obtain ⟨hv, hf⟩ := hp
        subst hv
        subst hf
        obtain ⟨hser, hsz⟩ :=
          hlaw codec (List.mem_cons_self _ _) data offset v size hc
        obtain ⟨hrest, hle⟩ := ih data (offset + size) vs fo
          (fun c hc' => hlaw c (List.mem_cons_of_mem _ hc')) hrec
        constructor
        · show codec.serialize v ++ hciParameters rest vs
            = (data.drop offset).take (fo - offset)
          rw [hser, hrest]
          have h1 : fo - offset = size + (fo - (offset + size)) := by omega
          rw [h1, List.take_add]
          congr 1
          rw [List.drop_drop]
        · omega

/-- C10: for an extended HCI packet class — a declared field schema walked
in declaration order from the class's PARSE_OFFSET — when every field codec
is lawful and the fields span the whole input, re-serializing the decoded
values through the `parameters` property reproduces the input bytes from
PARSE_OFFSET onward. -/
theorem hci_packet_round_trip (schema : List FieldCodec) (data : List Nat)
    (parseOffset : Nat) (values : List FieldValue) (finalOffset : Nat)
    (hlawful : ∀ codec ∈ schema, LawfulFieldCodec codec)
    (hparse : from_parameters schema data parseOffset
      = some (values, finalOffset))
    (hall : finalOffset = data.length) :
    hciParameters schema values = data.drop parseOffset := by
  obtain ⟨hser, hle⟩ := from_parameters_serializes schema data parseOffset
    values finalOffset hlawful hparse
  rw [hser, hall]
  have hlen : data.length - parseOffset = (data.drop parseOffset).length :=
    (List.length_drop _ _).symm
  rw [hlen, List.take_length]

/-- The one-byte unsigned-int codec is lawful. -/
theorem uint8Codec_lawful : LawfulFieldCodec uint8Codec := by
  intro data offset v size h
  unfold uint8Codec at h
  simp only [] at h
  split at h
  next hlt =>
    simp only [Option.some.injEq, Prod.mk.injEq] at h
    obtain ⟨hv, hsz⟩ := h
    subst hv
    subst hsz
    constructor
    · show [data.getD offset 0] = (data.drop offset).take 1
      rw [List.getD_eq_getElem data 0 hlt, List.drop_eq_getElem_cons hlt]
      rfl
    · omega
  next hlt => exact Option.noConfusion h

/-- C10 witness: a two-field one-byte schema decoding a VendorEvent-style
payload from PARSE_OFFSET 1 and re-serializing it. -/
theorem hci_packet_round_trip_witness :
    from_parameters [uint8Codec, uint8Codec] [7, 3, 4] VendorEvent_PARSE_OFFSET
        = some ([.int 3, .int 4], 3)
      ∧ (3 : Nat) = [7, 3, 4].length
      ∧ hciParameters [uint8Codec, uint8Codec] [.int 3, .int 4]
          = List.drop VendorEvent_PARSE_OFFSET [7, 3, 4] :=
  ⟨by decide, by decide,
    hci_packet_round_trip [uint8Codec, uint8Codec] [7, 3, 4]
      VendorEvent_PARSE_OFFSET [.int 3, .int 4] 3
      (fun codec hc => by
        rcases List.mem_cons.mp hc with rfl | hc'
        · exact uint8Codec_lawful
        · rcases List.mem_cons.mp hc' with rfl | hc''
          · exact uint8Codec_lawful
          · cases hc'')
      (by decide) (by decide)⟩
